import Mathlib

/-!
# Verification development for `app/cli/cmd/models.go` (plandex CLI)

A shallow embedding of the `models` command group: the custom-model
deletion command (`deleteCustomModel`), the interactive creation command
(`createCustomModel`), the table printed by `listAvailableModels`, and the
command registration done by `init`.

Conventions of the embedding

* Go strings are Lean `String`s read as sequences of code points.  Every
  character the numeric parsers accept is ASCII, and every byte of a
  multi-byte UTF-8 sequence is rejected by them exactly as the code point is
  rejected here; the only place where the byte length matters
  (`len(s)` in `strconv.Atoi`) uses `String.utf8ByteSize`.
* Go `int` is 64 bits wide.  Integers are Lean `Int`/`Nat`; the places where
  the Go code can wrap (`strconv.ParseUint`) carry an explicit `% 2^64`.
* Effects (standard output, standard input, API calls, process exit) are
  recorded as a list of `Event`s in program order.
* Collaborators whose code is outside the file (`api.Client`, the terminal
  helpers) are inputs of the run, collected in the structure `World`.
* The file declares `createCustomModel` twice; the body of the second
  declaration (lines 252-264) is not closed before `deleteCustomModelCmd`
  (line 265).  Both bodies are embedded, the second as `createCustomModel2`,
  and `deleteCustomModelCmd` and `deleteCustomModel` are embedded as the
  package-level declarations they are written as.
-/

namespace Plandex

/-! ## Data model -/

/-- The fields of `shared.CustomModel` that `models.go` reads or writes. -/
structure CustomModel where
  Id : String
  ModelName : String
  Provider : String
  BaseUrl : String
  MaxTokens : Int
  ApiKeyEnvVar : String
  Description : String
  deriving DecidableEq, Repr

/-- The zero value `shared.CustomModel{}`. -/
def CustomModel.zero : CustomModel :=
  { Id := "", ModelName := "", Provider := "", BaseUrl := "", MaxTokens := 0,
    ApiKeyEnvVar := "", Description := "" }

/-- The fields of an entry of `shared.AvailableModels` that the built-in table prints. -/
structure BaseModelConfig where
  Provider : String
  ModelName : String
  MaxTokens : Int
  ApiKeyEnvVar : String
  BaseUrl : String
  deriving DecidableEq, Repr

/-! ## `strconv`: `ParseUint`, `ParseInt`, `Atoi` -/

/-- The two error kinds of `strconv.NumError` that base-10 and base-0 parsing can produce. -/
inductive NumErr where
  | syntaxErr
  | rangeErr
  deriving DecidableEq, Repr

/-- The constant `maxUint64`. -/
def maxUint64 : Nat := 2 ^ 64 - 1

/-- The helper `lower(c)` of strconv: `c | ('x' - 'X')`. -/
def lower (c : Nat) : Nat := c ||| 0x20

/-- The digit value of one character inside the loop of `ParseUint`
(`none` is the `default:` branch, a syntax error).  The underscore case is
handled by the caller. -/
def digitVal (c : Char) : Option Nat :=
  let n := c.toNat
  if 48 ≤ n ∧ n ≤ 57 then some (n - 48)
  else if 97 ≤ lower n ∧ lower n ≤ 122 then some (lower n - 97 + 10)
  else none

/-- The main loop of `strconv.ParseUint` (`for _, c := range []byte(s)`), with the
accumulator `n` and the flag `underscores`.  Returns the value, the flag and the error. -/
def parseUintLoop (base : Nat) (base0 : Bool) (cutoff maxVal : Nat) :
    List Char → Nat → Bool → Nat × Bool × Option NumErr
  | [], n, us => (n, us, none)
  | c :: cs, n, us =>
    if c = '_' ∧ base0 = true then parseUintLoop base base0 cutoff maxVal cs n true
    else
      match digitVal c with
      | none => (0, us, some NumErr.syntaxErr)
      | some d =>
        if d ≥ base then (0, us, some NumErr.syntaxErr)
        else if n ≥ cutoff then (maxVal, us, some NumErr.rangeErr)
        else
          let n0 := n * base
          let n1 := (n0 + d) % 2 ^ 64
          if n1 < n0 ∨ n1 > maxVal then (maxVal, us, some NumErr.rangeErr)
          else parseUintLoop base base0 cutoff maxVal cs n1 us

/-- The state machine of `strconv.underscoreOK` after the sign and base prefix:
`saw` is one of the characters `'0'`, `'_'`, `'!'`, `'^'`. -/
def underscoreOKLoop (hex : Bool) : List Char → Char → Bool
  | [], saw => saw ≠ '_'
  | c :: cs, saw =>
    let n := c.toNat
    if (48 ≤ n ∧ n ≤ 57) ∨ (hex = true ∧ 97 ≤ lower n ∧ lower n ≤ 102) then
      underscoreOKLoop hex cs '0'
    else if c = '_' then
      if saw ≠ '0' then false else underscoreOKLoop hex cs '_'
    else if saw = '_' then false
    else underscoreOKLoop hex cs '!'

/-- The function `strconv.underscoreOK`. -/
def underscoreOK (s : List Char) : Bool :=
  let s1 := match s with
    | c :: cs => if c = '-' ∨ c = '+' then cs else s
    | [] => s
  match s1 with
  | c0 :: c1 :: cs =>
    if c0 = '0' ∧ (lower c1.toNat = 98 ∨ lower c1.toNat = 111 ∨ lower c1.toNat = 120) then
      underscoreOKLoop (decide (lower c1.toNat = 120)) cs '0'
    else underscoreOKLoop false s1 '^'
  | _ => underscoreOKLoop false s1 '^'

/-- The function `strconv.ParseUint(s, base, bitSize)` for `base` 0 or 2..36 and a
`bitSize` of 0 or 64 (both mean 64 bits on the 64-bit platforms modelled here). -/
def ParseUint (s : List Char) (base : Nat) : Nat × Option NumErr :=
  match s with
  | [] => (0, some NumErr.syntaxErr)
  | c0 :: rest =>
    let base0 := decide (base = 0)
    -- base prefix, only when base = 0
    let bd : Nat × List Char :=
      if base0 then
        if c0 = '0' then
          match rest with
          | c1 :: c2 :: cs =>
            if lower c1.toNat = 98 then (2, c2 :: cs)
            else if lower c1.toNat = 111 then (8, c2 :: cs)
            else if lower c1.toNat = 120 then (16, c2 :: cs)
            else (8, rest)
          | _ => (8, rest)
        else (10, s)
      else (base, s)
    let b := bd.1
    let cutoff := maxUint64 / b + 1
    let maxVal := 2 ^ 64 - 1
    match parseUintLoop b base0 cutoff maxVal bd.2 0 false with
    | (n, us, none) =>
      if us = true ∧ underscoreOK s = false then (0, some NumErr.syntaxErr) else (n, none)
    | (n, _, some e) => (n, some e)

/-- The function `strconv.ParseInt(s, base, 64)` (also `bitSize = 0` on 64-bit platforms). -/
def ParseInt (s : List Char) (base : Nat) : Int × Option NumErr :=
  match s with
  | [] => (0, some NumErr.syntaxErr)
  | c0 :: rest =>
    let neg := decide (c0 = '-')
    let body := if c0 = '+' ∨ c0 = '-' then rest else s
    let r := ParseUint body base
    if r.2 = some NumErr.syntaxErr then (0, some NumErr.syntaxErr)
    else
      let un := r.1
      let cutoff : Nat := 2 ^ 63
      if neg = false ∧ un ≥ cutoff then ((cutoff : Int) - 1, some NumErr.rangeErr)
      else if neg = true ∧ un > cutoff then (-(cutoff : Int), some NumErr.rangeErr)
      else if neg then (-(un : Int), none) else ((un : Int), none)

/-- The digit loop of the fast path of `strconv.Atoi`. -/
def atoiFastLoop : List Char → Int → Option Int
  | [], n => some n
  | c :: cs, n =>
    if c.toNat < 48 ∨ c.toNat > 57 then none
    else atoiFastLoop cs (n * 10 + ((c.toNat - 48 : Nat) : Int))

/-- The function `strconv.Atoi` on a 64-bit platform: the fast path for strings of
1 to 18 bytes, `ParseInt(s, 10, 0)` otherwise.  Returns the value and the error. -/
def Atoi (s : String) : Int × Option NumErr :=
  let sLen := s.utf8ByteSize
  if 0 < sLen ∧ sLen < 19 then
    match s.data with
    | [] => (0, some NumErr.syntaxErr)
    | c0 :: rest =>
      let signed := decide (c0 = '-' ∨ c0 = '+')
      let body := if signed then rest else s.data
      if signed = true ∧ body.length < 1 then (0, some NumErr.syntaxErr)
      else
        match atoiFastLoop body 0 with
        | none => (0, some NumErr.syntaxErr)
        | some n => if c0 = '-' then (-n, none) else (n, none)
  else ParseInt s.data 10

/-! ## `fmt.Scanln(&selectedIndex)` for an `int` destination

The scanner state `ss` is the unread input (a list of code points) together
with the token buffer `buf`.  `Scanln` runs with `nlIsSpace = false` and
`nlIsEnd = true`, and scans with the verb `'v'`. -/

/-- The errors `Scanln` can report while scanning one integer. -/
inductive ScanErr where
  | unexpectedNewline
  | eof
  | expectedInteger
  | num (e : NumErr)
  | expectedNewline
  deriving DecidableEq, Repr

/-- The table-driven `isSpace` of `fmt/scan.go`. -/
def isSpace (r : Char) : Bool :=
  let n := r.toNat
  (0x0009 ≤ n ∧ n ≤ 0x000d) ∨ n = 0x0020 ∨ n = 0x0085 ∨ n = 0x00a0 ∨ n = 0x1680 ∨
  (0x2000 ≤ n ∧ n ≤ 0x200a) ∨ (0x2028 ≤ n ∧ n ≤ 0x2029) ∨ n = 0x202f ∨ n = 0x205f ∨
  n = 0x3000

/-- The method `(*ss).SkipSpace` with `nlIsSpace = false`: returns the input from the
first non-space rune on, or fails on a newline. -/
def SkipSpace : List Char → Except ScanErr (List Char)
  | [] => .ok []
  | r :: rest =>
    if r = '\r' ∧ rest.head? = some '\n' then SkipSpace rest
    else if r = '\n' then .error ScanErr.unexpectedNewline
    else if isSpace r = false then .ok (r :: rest)
    else SkipSpace rest

/-- The method `(*ss).accept(ok)`: consumes the next rune into `buf` when it is one of `ok`. -/
def accept (ok : List Char) (buf inp : List Char) : Bool × List Char × List Char :=
  match inp with
  | [] => (false, buf, [])
  | r :: rest => if r ∈ ok then (true, buf ++ [r], rest) else (false, buf, inp)

/-- The method `(*ss).peek(ok)`. -/
def peek (ok : List Char) (inp : List Char) : Bool :=
  match inp with
  | [] => false
  | r :: _ => decide (r ∈ ok)

def decimalDigits : List Char := "0123456789".data
def octalDigits : List Char := "01234567".data
def binaryDigits : List Char := "01".data
def hexadecimalDigits : List Char := "0123456789aAbBcCdDeEfF".data
def sign : List Char := "+-".data

/-- The method `(*ss).scanBasePrefix`: returns the digit set, whether a leading zero was
consumed, and the new buffer and input.  The returned base is always 0. -/
def scanBasePrefix (buf inp : List Char) : List Char × Bool × List Char × List Char :=
  if peek ['0'] inp = false then (decimalDigits ++ ['_'], false, buf, inp)
  else
    let a := accept ['0'] buf inp
    if peek "bB".data a.2.2 then
      let b := accept "bB".data a.2.1 a.2.2
      (binaryDigits ++ ['_'], true, b.2.1, b.2.2)
    else if peek "oO".data a.2.2 then
      let b := accept "oO".data a.2.1 a.2.2
      (octalDigits ++ ['_'], true, b.2.1, b.2.2)
    else if peek "xX".data a.2.2 then
      let b := accept "xX".data a.2.1 a.2.2
      (hexadecimalDigits ++ ['_'], true, b.2.1, b.2.2)
    else (octalDigits ++ ['_'], true, a.2.1, a.2.2)

/-- The loop `for s.accept(digits) {}` of `scanNumber`. -/
def acceptMany (digits : List Char) : List Char → List Char → List Char × List Char
  | buf, [] => (buf, [])
  | buf, r :: rest =>
    if r ∈ digits then acceptMany digits (buf ++ [r]) rest else (buf, r :: rest)

/-- The method `(*ss).scanNumber(digits, haveDigits)`: the token and the unread input. -/
def scanNumber (digits : List Char) (haveDigits : Bool) (buf inp : List Char) :
    Except ScanErr (List Char × List Char) :=
  if haveDigits = false then
    match inp with
    | [] => .error ScanErr.eof
    | _ :: _ =>
      let a := accept digits buf inp
      if a.1 = false then .error ScanErr.expectedInteger
      else .ok (acceptMany digits a.2.1 a.2.2)
  else .ok (acceptMany digits buf inp)

/-- The method `(*ss).scanInt('v', 64)`: the value and the unread input. -/
def scanInt (inp : List Char) : Except ScanErr (Int × List Char) :=
  match SkipSpace inp with
  | .error e => .error e
  | .ok [] => .error ScanErr.eof
  | .ok (r :: rest) =>
    let a := accept sign [] (r :: rest)
    let p := scanBasePrefix a.2.1 a.2.2
    match scanNumber p.1 p.2.1 p.2.2.1 p.2.2.2 with
    | .error e => .error e
    | .ok (tok, rest1) =>
      match ParseInt tok 0 with
      | (i, none) => .ok (i, rest1)
      | (_, some e) => .error (ScanErr.num e)

/-- The end-of-line check at the end of `doScan` when `nlIsEnd` is set: only spaces may
precede the newline or the end of input. -/
def newlineCheck : List Char → Bool
  | [] => true
  | r :: rest =>
    if r = '\n' then true
    else if isSpace r = false then false
    else newlineCheck rest

/-- The call `fmt.Scanln(&v)` with `v` an `int` holding `v0`: the value of `v` afterwards
and the error returned.  The destination is assigned as soon as the integer is scanned,
before the end-of-line check; on a scan error it keeps `v0`. -/
def Scanln (stdin : String) (v0 : Int) : Int × Option ScanErr :=
  match scanInt stdin.data with
  | .error e => (v0, some e)
  | .ok (i, rest) => if newlineCheck rest then (i, none) else (i, some ScanErr.expectedNewline)

/-! ## Effects -/

/-- An error value passed to the `%v` verb of an error message: an error returned by a
collaborator (its text), or the `*strconv.NumError` of `Atoi` for the input `num`. -/
inductive GoError where
  | collaborator (text : String)
  | atoi (num : String) (err : NumErr)
  deriving DecidableEq, Repr

/-- One observable effect of a command run, in program order. -/
inductive Event where
  /-- Call of `auth.MustResolveAuthWithOrg()`. -/
  | mustResolveAuthWithOrg
  /-- Call of `lib.MustResolveProject()`. -/
  | mustResolveProject
  /-- Call of `term.StartSpinner(msg)`. -/
  | startSpinner (msg : String)
  /-- Call of `term.StopSpinner()`. -/
  | stopSpinner
  /-- Call of `api.Client.ListCustomModels()`. -/
  | apiListCustomModels
  /-- Call of `api.Client.DeleteCustomModel(id)`. -/
  | apiDeleteCustomModel (id : String)
  /-- Call of `api.Client.CreateCustomModel(model)`. -/
  | apiCreateCustomModel (model : CustomModel)
  /-- Text written to standard output by `fmt.Println` / `fmt.Printf` / `color.Println`. -/
  | stdout (text : String)
  /-- A read of standard input by `fmt.Scanln`. -/
  | scanStdin
  /-- Call of `term.GetUserStringInput(msg)`. -/
  | getUserStringInput (msg : String)
  /-- The message printed by `term.OutputErrorAndExit(format, err)`. -/
  | errorOutput (format : String) (err : GoError)
  /-- A `tablewriter` table rendered with this header and these rows. -/
  | table (header : List String) (rows : List (List String))
  /-- Call of `term.PrintCmds("", cmds...)`. -/
  | printCmds (cmds : List String)
  deriving DecidableEq, Repr

/-- How a command run ends. -/
inductive Termination where
  /-- The handler returned to cobra. -/
  | returned
  /-- The process was terminated with this exit status. -/
  | exited (code : Nat)
  /-- A Go run-time panic (index out of range). -/
  | panicked
  deriving DecidableEq, Repr

/-- The observable behaviour of one command run. -/
structure Run where
  events : List Event
  ending : Termination
  deriving DecidableEq, Repr

/-- The exit status of the process: 0 when the handler returns, the code passed to
`os.Exit` otherwise, 2 for a run-time panic. -/
def Run.exitStatus (r : Run) : Nat :=
  match r.ending with
  | .returned => 0
  | .exited c => c
  | .panicked => 2

/-- The handler returns after the events `evs`. -/
def Run.ret (evs : List Event) : Run := { events := evs, ending := .returned }

/-- Modelled from the spec: `term.OutputErrorAndExit` of package `plandex/term`, whose code
is not part of this file.  Spec section 6: "non-zero termination with a printed message on
any collaborator error"; section 7: "reported with the underlying message, command aborts".
It prints the formatted message and ends the process with status 1, after the events `evs`. -/
def OutputErrorAndExit (evs : List Event) (format : String) (err : GoError) : Run :=
  { events := evs ++ [Event.errorOutput format err], ending := .exited 1 }

/-- The API calls of a run, in order. -/
def apiCalls : List Event → List Event
  | [] => []
  | e :: es =>
    match e with
    | .apiListCustomModels => e :: apiCalls es
    | .apiDeleteCustomModel _ => e :: apiCalls es
    | .apiCreateCustomModel _ => e :: apiCalls es
    | _ => apiCalls es

/-- The mutating API calls of a run (create and delete), in order. -/
def mutatingCalls : List Event → List Event
  | [] => []
  | e :: es =>
    match e with
    | .apiDeleteCustomModel _ => e :: mutatingCalls es
    | .apiCreateCustomModel _ => e :: mutatingCalls es
    | _ => mutatingCalls es

/-- Whether the run read from the terminal (`fmt.Scanln` or `term.GetUserStringInput`). -/
def readsInput : List Event → Bool
  | [] => false
  | e :: es =>
    match e with
    | .scanStdin => true
    | .getUserStringInput _ => true
    | _ => readsInput es

/-! ## `deleteCustomModel` (lines 272-333) -/

/-- What the collaborators of `deleteCustomModel` answer during one run:
`api.Client.ListCustomModels()` returns the list or an error (spec section 6),
`api.Client.DeleteCustomModel(id)` returns an error or nil, and `stdin` is what
standard input holds when `fmt.Scanln` is called. -/
structure World where
  listResult : Except String (List CustomModel)
  deleteResult : String → Option String
  stdin : String

/-- The name search of lines 300-305: the loop over `models` that stops at the first
entry with `m.ModelName == input`. -/
def searchByName (input : String) : List CustomModel → Option CustomModel
  | [] => none
  | m :: ms => if m.ModelName = input then some m else searchByName input ms

/-- Lines 290-307: the value of `modelToDelete` after the argument has been looked at
(`none` is the nil pointer). -/
def resolveArg (models : List CustomModel) (args : List String) : Option CustomModel :=
  match args with
  | [input] =>
    let r := Atoi input
    let index := r.1
    if r.2 = none ∧ index > 0 ∧ index ≤ (models.length : Int) then
      models[(index - 1).toNat]?
    else searchByName input models
  | _ => none

/-- The loop of lines 311-313: one line `i+1: name` per model, counting from `i`. -/
def printChoices (i : Nat) : List CustomModel → List Event
  | [] => []
  | m :: ms =>
    Event.stdout (toString (i + 1) ++ ": " ++ m.ModelName ++ "\n") :: printChoices (i + 1) ms

/-- The events of the interactive prompt, lines 310-315. -/
def promptEvents (models : List CustomModel) : List Event :=
  [Event.stdout "Select a model to delete:\n"] ++ printChoices 0 models ++ [Event.scanStdin]

/-- The events of lines 323-325: spinner, delete call keyed by `Id`, spinner stop. -/
def deleteEvents (m : CustomModel) : List Event :=
  [Event.startSpinner ("Deleting model \x27" ++ m.ModelName ++ "\x27..."),
    Event.apiDeleteCustomModel m.Id, Event.stopSpinner]

/-- The confirmation line of line 332. -/
def confirmation (m : CustomModel) : Event :=
  Event.stdout ("Custom model \x27" ++ m.ModelName ++ "\x27 deleted successfully.\n")

/-- Lines 323-332: the deletion of the resolved model, after the events `evs`. -/
def deleteResolved (w : World) (evs : List Event) (m : CustomModel) : Run :=
  let evs1 := evs ++ deleteEvents m
  match w.deleteResult m.Id with
  | some err => OutputErrorAndExit evs1 "Error deleting custom model: %v" (.collaborator err)
  | none => Run.ret (evs1 ++ [confirmation m])

/-- The events of lines 276-278. -/
def fetchEvents : List Event :=
  [Event.startSpinner "Fetching custom models...", Event.apiListCustomModels, Event.stopSpinner]

/-- The handler `deleteCustomModel(cmd, args)`. -/
def deleteCustomModel (w : World) (args : List String) : Run :=
  match w.listResult with
  | .error err => OutputErrorAndExit fetchEvents "Error fetching custom models: %v" (.collaborator err)
  | .ok models =>
    if models.length = 0 then
      Run.ret (fetchEvents ++ [Event.stdout "No custom models available to delete.\n"])
    else
      match resolveArg models args with
      | some m => deleteResolved w fetchEvents m
      | none =>
        let evs := fetchEvents ++ promptEvents models
        let selectedIndex := (Scanln w.stdin 0).1
        if selectedIndex < 1 ∨ selectedIndex > (models.length : Int) then
          Run.ret (evs ++ [Event.stdout "Invalid selection.\n"])
        else
          match models[(selectedIndex - 1).toNat]? with
          | some m => deleteResolved w evs m
          | none => { events := evs, ending := .panicked }

/-! ## `createCustomModel` -/

/-- What the collaborators of `createCustomModel` answer during one run: `input n` is the
result of the `n`-th call of `term.GetUserStringInput` (counting from 0), a string or an
error, and `createResult model` is the error (or nil) of `api.Client.CreateCustomModel`. -/
structure CreateWorld where
  input : Nat → Except String String
  createResult : CustomModel → Option String

/-- Lines 96-105 (and 255-264): the creation call and its outcome, after the events `evs`. -/
def createCall (w : CreateWorld) (evs : List Event) (model : CustomModel) : Run :=
  let evs1 := evs ++ [Event.startSpinner "Creating model...",
    Event.apiCreateCustomModel model, Event.stopSpinner]
  match w.createResult model with
  | some err => OutputErrorAndExit evs1 "Error creating model: %v" (.collaborator err)
  | none => Run.ret (evs1 ++ [Event.stdout "Model created successfully.\n"])

/-- The handler `createCustomModel(cmd, args)` of lines 46-106: six prompts, the fourth
converted with `strconv.Atoi`, then one creation call. -/
def createCustomModel (w : CreateWorld) : Run :=
  let model := CustomModel.zero
  let e0 := [Event.getUserStringInput "Enter model name:"]
  match w.input 0 with
  | .error err => OutputErrorAndExit e0 "Error reading model name: %v" (.collaborator err)
  | .ok modelName =>
  let model := { model with ModelName := modelName }
  let e1 := e0 ++ [Event.getUserStringInput "Enter provider:"]
  match w.input 1 with
  | .error err => OutputErrorAndExit e1 "Error reading provider: %v" (.collaborator err)
  | .ok provider =>
  let model := { model with Provider := provider }
  let e2 := e1 ++ [Event.getUserStringInput "Enter base URL:"]
  match w.input 2 with
  | .error err => OutputErrorAndExit e2 "Error reading base URL: %v" (.collaborator err)
  | .ok baseUrl =>
  let model := { model with BaseUrl := baseUrl }
  let e3 := e2 ++ [Event.getUserStringInput "Enter max tokens:"]
  match w.input 3 with
  | .error err => OutputErrorAndExit e3 "Error reading max tokens: %v" (.collaborator err)
  | .ok maxTokensStr =>
  match Atoi maxTokensStr with
  | (_, some e) =>
    OutputErrorAndExit e3 "Invalid number for max tokens: %v" (.atoi maxTokensStr e)
  | (maxTokens, none) =>
  let model := { model with MaxTokens := maxTokens }
  let e4 := e3 ++ [Event.getUserStringInput "Enter API key environment variable:"]
  match w.input 4 with
  | .error err => OutputErrorAndExit e4 "Error reading API key environment variable: %v" (.collaborator err)
  | .ok apiKeyEnvVar =>
  let model := { model with ApiKeyEnvVar := apiKeyEnvVar }
  let e5 := e4 ++ [Event.getUserStringInput "Enter description (optional):"]
  match w.input 5 with
  | .error err => OutputErrorAndExit e5 "Error reading description: %v" (.collaborator err)
  | .ok description =>
  let model := { model with Description := description }
  createCall w e5 model

/-- The second declaration named `createCustomModel`, lines 252-264 (the file declares the
name twice, and this body is not closed before line 265): no prompt, one creation call
with the zero-valued model. -/
def createCustomModel2 (w : CreateWorld) : Run :=
  createCall w [] CustomModel.zero

/-! ## `listAvailableModels` (lines 199-251) -/

/-- The inputs of `listAvailableModels`: `lib.CurrentPlanId`, the flag variable
`customModelsOnly`, the table `shared.AvailableModels`, and the answer of
`api.Client.ListCustomModels()`. -/
structure ListWorld where
  currentPlanId : String
  customModelsOnly : Bool
  availableModels : List BaseModelConfig
  listResult : Except String (List CustomModel)

/-- The header of the built-in models table, line 224. -/
def builtInHeader : List String := ["Provider", "Name", "🪙", "🔑", "Url"]

/-- The row appended for one built-in model, line 226. -/
def builtInRow (model : BaseModelConfig) : List String :=
  [model.Provider, model.ModelName, toString model.MaxTokens, model.ApiKeyEnvVar, model.BaseUrl]

/-- The header of the custom models table, line 236. -/
def customHeader : List String := ["#", "Provider", "Name", "🪙", "🔑", "Url"]

/-- The row appended for the custom model at index `i`, line 238. -/
def customRow (i : Nat) (model : CustomModel) : List String :=
  [toString (i + 1), model.ModelName, model.Provider, toString model.MaxTokens,
   model.ApiKeyEnvVar, model.BaseUrl]

/-- The loop of lines 237-239, counting from `i`. -/
def customRows (i : Nat) : List CustomModel → List (List String)
  | [] => []
  | m :: ms => customRow i m :: customRows (i + 1) ms

/-- The handler `listAvailableModels(cmd, args)`. -/
def listAvailableModels (w : ListWorld) : Run :=
  let e0 := [Event.mustResolveAuthWithOrg, Event.mustResolveProject]
  if w.currentPlanId = "" then Run.ret (e0 ++ [Event.stdout "🤷‍♂️ No current plan\n"])
  else
    let e1 := e0 ++ [Event.startSpinner "", Event.apiListCustomModels, Event.stopSpinner]
    match w.listResult with
    | .error err => OutputErrorAndExit e1 "Error fetching custom models: %v" (.collaborator err)
    | .ok customModels =>
      let e2 :=
        if w.customModelsOnly = false then
          e1 ++ [Event.stdout "🏠 Built-in Models\n",
            Event.table builtInHeader (w.availableModels.map builtInRow), Event.stdout "\n"]
        else e1
      let e3 :=
        if customModels.length > 0 then
          e2 ++ [Event.stdout "🛠️ Custom Models\n",
            Event.table customHeader (customRows 0 customModels)]
        else if w.customModelsOnly then
          e2 ++ [Event.stdout "🤷‍♂️ No custom models\n", Event.stdout "\n"]
        else e2
      if w.customModelsOnly then Run.ret (e3 ++ [Event.printCmds ["models", "set-model"]])
      else Run.ret (e3 ++ [Event.printCmds ["models available --custom", "models", "set-model"]])

/-- The cell of `row` in the column whose header cell is `name` (the first such column). -/
def cellUnder (header row : List String) (name : String) : Option String :=
  match header, row with
  | h :: hs, c :: cs => if h = name then some c else cellUnder hs cs name
  | _, _ => none

/-! ## Command registration (`init`, lines 20-26, and the command variables) -/

/-- The handler a command runs (`Run:` field). -/
inductive Handler where
  | models
  | listAvailableModels
  | createCustomModel
  | deleteCustomModel
  deriving DecidableEq, Repr

/-- A boolean flag registered with `Flags().BoolVarP`. -/
structure Flag where
  name : String
  shorthand : String
  value : Bool
  usage : String
  deriving DecidableEq, Repr

/-- The fields of `cobra.Command` set in this file; `maxArgs` is `cobra.MaximumNArgs(n)`. -/
structure Command where
  Use : String
  Short : String
  Run : Handler
  maxArgs : Option Nat
  deriving DecidableEq, Repr

def modelsCmd : Command :=
  { Use := "models", Short := "Show model settings", Run := .models, maxArgs := none }

def listAvailableModelsCmd : Command :=
  { Use := "available", Short := "List all available models", Run := .listAvailableModels,
    maxArgs := none }

def createCustomModelCmd : Command :=
  { Use := "create", Short := "Create a custom model", Run := .createCustomModel,
    maxArgs := none }

def deleteCustomModelCmd : Command :=
  { Use := "delete [name-or-index]", Short := "Delete a custom model by name or index",
    Run := .deleteCustomModel, maxArgs := some 1 }

/-- The command tree built by the `init` functions: for each parent (`none` is `RootCmd`,
`some c` the command `c`) the children added so far, and the flags of each command. -/
structure CmdTree where
  children : Option Command → List Command
  flags : Command → List Flag

/-- The tree before any `init` has run. -/
def CmdTree.empty : CmdTree := { children := fun _ => [], flags := fun _ => [] }

/-- The call `parent.AddCommand(child)`. -/
def AddCommand (t : CmdTree) (parent : Option Command) (child : Command) : CmdTree :=
  { t with children := fun p => if p = parent then t.children p ++ [child] else t.children p }

/-- The call `cmd.Flags().BoolVarP(&v, name, shorthand, value, usage)`. -/
def BoolVarP (t : CmdTree) (cmd : Command) (f : Flag) : CmdTree :=
  { t with flags := fun c => if c = cmd then t.flags c ++ [f] else t.flags c }

/-- The function `init()` of lines 20-26. -/
def init (t : CmdTree) : CmdTree :=
  let t1 := AddCommand t none modelsCmd
  let t2 := AddCommand t1 (some modelsCmd) listAvailableModelsCmd
  let t3 := AddCommand t2 (some modelsCmd) createCustomModelCmd
  BoolVarP t3 listAvailableModelsCmd
    { name := "custom", shorthand := "c", value := false, usage := "List custom models only" }

/-! ## Concrete inputs used by the scenarios -/

def gpt : CustomModel := { CustomModel.zero with Id := "a", ModelName := "gpt" }
def claude : CustomModel := { CustomModel.zero with Id := "b", ModelName := "claude" }

/-- A model whose name is the numeral "2". -/
def namedTwo : CustomModel := { CustomModel.zero with Id := "x", ModelName := "2" }

/-- A world whose listing returns `[namedTwo, claude]` and whose deletions succeed. -/
def numeralNamed : World :=
  { listResult := .ok [namedTwo, claude], deleteResult := fun _ => none, stdin := "" }

/-- A world whose listing returns `[gpt, claude]`, whose deletions succeed, and whose
standard input holds `line`. -/
def twoModels (line : String) : World :=
  { listResult := .ok [gpt, claude], deleteResult := fun _ => none, stdin := line }

/-- A world whose listing returns the empty list. -/
def noModels (line : String) : World :=
  { listResult := .ok [], deleteResult := fun _ => none, stdin := line }

/-- A model whose name and provider differ, for the table of `listAvailableModels`. -/
def openaiModel : CustomModel :=
  { Id := "a", ModelName := "gpt", Provider := "openai", BaseUrl := "https://x",
    MaxTokens := 4096, ApiKeyEnvVar := "KEY", Description := "" }

/-- A run of `models available --custom` with a current plan and the single custom model
`openaiModel`. -/
def oneCustomModel : ListWorld :=
  { currentPlanId := "plan", customModelsOnly := true, availableModels := [],
    listResult := .ok [openaiModel] }

/-- The answers of a user who types "12x", respectively "4096", at the max-tokens prompt. -/
def typed (maxTokensStr : String) : CreateWorld :=
  { input := fun n =>
      match n with
      | 0 => .ok "gpt"
      | 1 => .ok "openai"
      | 2 => .ok "https://x"
      | 3 => .ok maxTokensStr
      | 4 => .ok "KEY"
      | _ => .ok "",
    createResult := fun _ => none }

/-! ## Auxiliary lemmas on event lists -/

theorem apiCalls_append (a b : List Event) : apiCalls (a ++ b) = apiCalls a ++ apiCalls b := by
  induction a with
  | nil => rfl
  | cons e es ih => cases e <;> simp [apiCalls, ih]

theorem mutatingCalls_append (a b : List Event) :
    mutatingCalls (a ++ b) = mutatingCalls a ++ mutatingCalls b := by
  induction a with
  | nil => rfl
  | cons e es ih => cases e <;> simp [mutatingCalls, ih]

theorem readsInput_append (a b : List Event) :
    readsInput (a ++ b) = (readsInput a || readsInput b) := by
  induction a with
  | nil => rfl
  | cons e es ih => cases e <;> simp [readsInput, ih]

theorem apiCalls_printChoices (i : Nat) (ms : List CustomModel) :
    apiCalls (printChoices i ms) = [] := by
  induction ms generalizing i with
  | nil => rfl
  | cons m ms ih => simp [printChoices, apiCalls, ih]

theorem mutatingCalls_printChoices (i : Nat) (ms : List CustomModel) :
    mutatingCalls (printChoices i ms) = [] := by
  induction ms generalizing i with
  | nil => rfl
  | cons m ms ih => simp [printChoices, mutatingCalls, ih]

theorem readsInput_printChoices (i : Nat) (ms : List CustomModel) :
    readsInput (printChoices i ms) = false := by
  induction ms generalizing i with
  | nil => rfl
  | cons m ms ih => simp [printChoices, readsInput, ih]

/-- The confirmation text differs from the heading of the pick list. -/
theorem select_ne_confirmation (name : String) :
    "Select a model to delete:\n" ≠ "Custom model \x27" ++ name ++ "\x27 deleted successfully.\n" := by
  intro h
  have h1 := congrArg String.data h
  simp at h1

theorem apiCalls_fetchEvents : apiCalls fetchEvents = [Event.apiListCustomModels] := rfl

theorem apiCalls_promptEvents (ms : List CustomModel) : apiCalls (promptEvents ms) = [] := by
  simp [promptEvents, apiCalls_append, apiCalls_printChoices, apiCalls]

theorem mutatingCalls_promptEvents (ms : List CustomModel) :
    mutatingCalls (promptEvents ms) = [] := by
  simp [promptEvents, mutatingCalls_append, mutatingCalls_printChoices, mutatingCalls]

theorem readsInput_promptEvents (ms : List CustomModel) : readsInput (promptEvents ms) = true := by
  simp [promptEvents, readsInput_append, readsInput]

theorem deleteResolved_apiCalls (w : World) (evs : List Event) (m : CustomModel) :
    apiCalls (deleteResolved w evs m).events =
      apiCalls evs ++ [Event.apiDeleteCustomModel m.Id] := by
  unfold deleteResolved
  cases w.deleteResult m.Id <;>
    simp [OutputErrorAndExit, Run.ret, apiCalls_append, apiCalls, deleteEvents, confirmation]

theorem deleteResolved_mutatingCalls (w : World) (evs : List Event) (m : CustomModel) :
    mutatingCalls (deleteResolved w evs m).events =
      mutatingCalls evs ++ [Event.apiDeleteCustomModel m.Id] := by
  unfold deleteResolved
  cases w.deleteResult m.Id <;>
    simp [OutputErrorAndExit, Run.ret, mutatingCalls_append, mutatingCalls, deleteEvents,
      confirmation]

theorem deleteResolved_readsInput (w : World) (evs : List Event) (m : CustomModel) :
    readsInput (deleteResolved w evs m).events = readsInput evs := by
  unfold deleteResolved
  cases w.deleteResult m.Id <;>
    simp [OutputErrorAndExit, Run.ret, readsInput_append, readsInput, deleteEvents,
      confirmation]

/-- The deletion step only appends events. -/
theorem deleteResolved_events (w : World) (evs : List Event) (m : CustomModel) :
    ∃ rest, (deleteResolved w evs m).events = evs ++ rest := by
  unfold deleteResolved
  cases w.deleteResult m.Id
  · exact ⟨_, List.append_assoc _ _ _⟩
  · exact ⟨_, List.append_assoc _ _ _⟩

/-- An index in `[1, len(models)]` selects an element of the list: `models[index-1]`
does not panic. -/
theorem index_lookup (models : List CustomModel) (i : Int) (hlo : 1 ≤ i)
    (hhi : i ≤ (models.length : Int)) :
    ∃ m, models[(i - 1).toNat]? = some m ∧ m ∈ models := by
  have hlt : (i - 1).toNat < models.length := by omega
  refine ⟨models[(i - 1).toNat], ?_, List.getElem_mem _⟩
  exact List.getElem?_eq_getElem hlt

/-- The name search returns the first entry with the given name. -/
theorem searchByName_first (input : String) (pre post : List CustomModel) (m : CustomModel)
    (hm : m.ModelName = input) (hpre : ∀ x ∈ pre, x.ModelName ≠ input) :
    searchByName input (pre ++ m :: post) = some m := by
  induction pre with
  | nil => simp [searchByName, hm]
  | cons x xs ih =>
    have hx : x.ModelName ≠ input := hpre x (List.mem_cons_self _ _)
    have hxs : ∀ y ∈ xs, y.ModelName ≠ input := fun y hy => hpre y (List.mem_cons_of_mem _ hy)
    simp [searchByName, hx, ih hxs]

/-- The name search finds nothing exactly when no entry has the given name. -/
theorem searchByName_none (input : String) (models : List CustomModel)
    (h : ∀ x ∈ models, x.ModelName ≠ input) : searchByName input models = none := by
  induction models with
  | nil => rfl
  | cons x xs ih =>
    have hx : x.ModelName ≠ input := h x (List.mem_cons_self _ _)
    have hxs : ∀ y ∈ xs, y.ModelName ≠ input := fun y hy => h y (List.mem_cons_of_mem _ hy)
    simp [searchByName, hx, ih hxs]

/-- Whatever the name search returns is an element of the list with that name. -/
theorem searchByName_some (input : String) (models : List CustomModel) (m : CustomModel)
    (h : searchByName input models = some m) : m ∈ models ∧ m.ModelName = input := by
  induction models with
  | nil => simp [searchByName] at h
  | cons x xs ih =>
    unfold searchByName at h
    by_cases hx : x.ModelName = input
    · simp [hx] at h
      subst h
      exact ⟨List.mem_cons_self _ _, hx⟩
    · simp [hx] at h
      exact ⟨List.mem_cons_of_mem _ (ih h).1, (ih h).2⟩

/-- Whatever the argument resolves to is an element of the fetched list. -/
theorem resolveArg_mem (models : List CustomModel) (args : List String) (m : CustomModel)
    (h : resolveArg models args = some m) : m ∈ models := by
  unfold resolveArg at h
  split at h
  · rename_i input
    simp only at h
    split at h
    · exact List.getElem?_mem h
    · exact (searchByName_some _ _ _ h).1
  · simp at h

/-- The run of `deleteCustomModel` on a non-empty fetched list. -/
theorem deleteCustomModel_nonempty (w : World) (args : List String) (models : List CustomModel)
    (hlist : w.listResult = .ok models) (hne : models ≠ []) :
    deleteCustomModel w args =
      match resolveArg models args with
      | some m => deleteResolved w fetchEvents m
      | none =>
        if (Scanln w.stdin 0).1 < 1 ∨ (Scanln w.stdin 0).1 > (models.length : Int) then
          Run.ret (fetchEvents ++ promptEvents models ++ [Event.stdout "Invalid selection.\n"])
        else
          match models[((Scanln w.stdin 0).1 - 1).toNat]? with
          | some m => deleteResolved w (fetchEvents ++ promptEvents models) m
          | none => { events := fetchEvents ++ promptEvents models, ending := .panicked } := by
  have hlen : models.length ≠ 0 := by
    intro h; exact hne (List.length_eq_zero.mp h)
  unfold deleteCustomModel
  rw [hlist]
  simp only [hlen, if_false]

/-- The interactive branch: an in-range selection deletes `models[k-1]`, any other value
ends the run with "Invalid selection.". -/
theorem interactive_branch (w : World) (models : List CustomModel) (args : List String)
    (hlist : w.listResult = .ok models) (hne : models ≠ [])
    (hnone : resolveArg models args = none) :
    (1 ≤ (Scanln w.stdin 0).1 ∧ (Scanln w.stdin 0).1 ≤ (models.length : Int) →
      ∃ m, models[((Scanln w.stdin 0).1 - 1).toNat]? = some m ∧
        deleteCustomModel w args = deleteResolved w (fetchEvents ++ promptEvents models) m) ∧
    (¬ (1 ≤ (Scanln w.stdin 0).1 ∧ (Scanln w.stdin 0).1 ≤ (models.length : Int)) →
      deleteCustomModel w args =
        Run.ret (fetchEvents ++ promptEvents models ++ [Event.stdout "Invalid selection.\n"])) := by
  have hrun := deleteCustomModel_nonempty w args models hlist hne
  rw [hnone] at hrun
  simp only at hrun
  constructor
  · rintro ⟨hlo, hhi⟩
    obtain ⟨m, hm, _⟩ := index_lookup models _ hlo hhi
    have hcond : ¬ ((Scanln w.stdin 0).1 < 1 ∨ (Scanln w.stdin 0).1 > (models.length : Int)) := by
      omega
    rw [if_neg hcond, hm] at hrun
    exact ⟨m, hm, hrun⟩
  · intro hbad
    have hcond : (Scanln w.stdin 0).1 < 1 ∨ (Scanln w.stdin 0).1 > (models.length : Int) := by
      omega
    rw [if_pos hcond] at hrun
    exact hrun

theorem deleteResolved_ok (w : World) (evs : List Event) (m : CustomModel)
    (h : w.deleteResult m.Id = none) :
    deleteResolved w evs m = Run.ret (evs ++ deleteEvents m ++ [confirmation m]) := by
  unfold deleteResolved
  rw [h]

theorem deleteResolved_err (w : World) (evs : List Event) (m : CustomModel) (err : String)
    (h : w.deleteResult m.Id = some err) :
    deleteResolved w evs m =
      OutputErrorAndExit (evs ++ deleteEvents m) "Error deleting custom model: %v"
        (GoError.collaborator err) := by
  unfold deleteResolved
  rw [h]

/-- A delete call is among the events exactly when it is among the API calls. -/
theorem mem_apiCalls_delete (evs : List Event) (id : String) :
    Event.apiDeleteCustomModel id ∈ evs ↔ Event.apiDeleteCustomModel id ∈ apiCalls evs := by
  induction evs with
  | nil => simp [apiCalls]
  | cons e es ih => cases e <;> simp [apiCalls, ih]

/-- The five ways a run of `deleteCustomModel` can go. -/
theorem deleteCustomModel_cases (w : World) (args : List String) :
    (∃ err, w.listResult = .error err ∧
      deleteCustomModel w args =
        OutputErrorAndExit fetchEvents "Error fetching custom models: %v"
          (GoError.collaborator err)) ∨
    (w.listResult = .ok [] ∧
      deleteCustomModel w args =
        Run.ret (fetchEvents ++ [Event.stdout "No custom models available to delete.\n"])) ∨
    (∃ models m, w.listResult = .ok models ∧ models ≠ [] ∧ m ∈ models ∧
      resolveArg models args = some m ∧
      deleteCustomModel w args = deleteResolved w fetchEvents m) ∨
    (∃ models, w.listResult = .ok models ∧ models ≠ [] ∧ resolveArg models args = none ∧
      ¬ (1 ≤ (Scanln w.stdin 0).1 ∧ (Scanln w.stdin 0).1 ≤ (models.length : Int)) ∧
      deleteCustomModel w args =
        Run.ret (fetchEvents ++ promptEvents models ++ [Event.stdout "Invalid selection.\n"])) ∨
    (∃ models m, w.listResult = .ok models ∧ models ≠ [] ∧ m ∈ models ∧
      resolveArg models args = none ∧
      (1 ≤ (Scanln w.stdin 0).1 ∧ (Scanln w.stdin 0).1 ≤ (models.length : Int)) ∧
      models[((Scanln w.stdin 0).1 - 1).toNat]? = some m ∧
      deleteCustomModel w args = deleteResolved w (fetchEvents ++ promptEvents models) m) := by
  cases hlist : w.listResult with
  | error err =>
    left
    refine ⟨err, rfl, ?_⟩
    unfold deleteCustomModel
    rw [hlist]
  | ok models =>
    right
    by_cases hne : models = []
    · left
      subst hne
      refine ⟨rfl, ?_⟩
      unfold deleteCustomModel
      rw [hlist]
      rfl
    · right
      cases hres : resolveArg models args with
      | some m =>
        left
        refine ⟨models, m, rfl, hne, resolveArg_mem models args m hres, hres, ?_⟩
        rw [deleteCustomModel_nonempty w args models hlist hne, hres]
      | none =>
        right
        have h4 := interactive_branch w models args hlist hne hres
        by_cases hin : 1 ≤ (Scanln w.stdin 0).1 ∧ (Scanln w.stdin 0).1 ≤ (models.length : Int)
        · right
          obtain ⟨m, hm, hrun⟩ := h4.1 hin
          exact ⟨models, m, rfl, hne, List.getElem?_mem hm, hres, hin, hm, hrun⟩
        · left
          exact ⟨models, rfl, hne, hres, hin, h4.2 hin⟩

/-- The last event of a list that ends with `e`. -/
theorem getLast_snoc_eq (evs : List Event) (e : Event) : (evs ++ [e]).getLast? = some e := by
  simp

/-- The fetch and the pick list contain no delete call. -/
theorem no_delete_in_prompt (models : List CustomModel) (id : String) :
    Event.apiDeleteCustomModel id ∉ fetchEvents ++ promptEvents models := by
  rw [mem_apiCalls_delete, apiCalls_append, apiCalls_promptEvents]
  simp [fetchEvents, apiCalls]

theorem no_delete_in_fetch (id : String) : Event.apiDeleteCustomModel id ∉ fetchEvents := by
  simp [fetchEvents]

/-- The exit behaviour of the deletion step, when no delete call precedes it. -/
theorem deleteResolved_exit (w : World) (evs : List Event) (m : CustomModel)
    (hevs : ∀ id, Event.apiDeleteCustomModel id ∉ evs) :
    (∀ id, Event.apiDeleteCustomModel id ∈ (deleteResolved w evs m).events → id = m.Id) ∧
    Event.apiDeleteCustomModel m.Id ∈ (deleteResolved w evs m).events ∧
    (∀ err, w.deleteResult m.Id = some err →
      (deleteResolved w evs m).exitStatus = 1 ∧
      (deleteResolved w evs m).events.getLast? =
        some (Event.errorOutput "Error deleting custom model: %v" (GoError.collaborator err))) ∧
    (w.deleteResult m.Id = none →
      (deleteResolved w evs m).exitStatus = 0 ∧
      (deleteResolved w evs m).events.getLast? = some (confirmation m)) := by
  have hmem : ∀ id, Event.apiDeleteCustomModel id ∈ (deleteResolved w evs m).events →
      id = m.Id := by
    intro id h
    rw [mem_apiCalls_delete, deleteResolved_apiCalls, List.mem_append] at h
    rcases h with h | h
    · exact absurd ((mem_apiCalls_delete evs id).mpr h) (hevs id)
    · simpa using h
  have hin : Event.apiDeleteCustomModel m.Id ∈ (deleteResolved w evs m).events := by
    rw [mem_apiCalls_delete, deleteResolved_apiCalls]
    simp
  refine ⟨hmem, hin, ?_, ?_⟩
  · intro err h
    rw [deleteResolved_err w evs m err h]
    exact ⟨rfl, getLast_snoc_eq _ _⟩
  · intro h
    rw [deleteResolved_ok w evs m h]
    exact ⟨rfl, getLast_snoc_eq _ _⟩

/-! ## Claims -/

/-- C1: with a non-empty fetched list, a single argument that `strconv.Atoi` parses to an
integer `i` with `1 ≤ i ≤ len(models)` resolves to `models[i-1]`: the run is the
deletion of that model straight after the fetch, its API calls are the listing followed
by `DeleteCustomModel(models[i-1].Id)`, nothing is read from the terminal and the pick
list is not printed.  No assumption is made on the model names, so this holds also when
some model is named like the token. -/
theorem C1_index_token_resolves (w : World) (models : List CustomModel) (token : String)
    (i : Int) (hlist : w.listResult = .ok models) (hne : models ≠ [])
    (hparse : Atoi token = (i, none)) (hlo : 1 ≤ i) (hhi : i ≤ (models.length : Int)) :
    ∃ m, models[(i - 1).toNat]? = some m ∧
      resolveArg models [token] = some m ∧
      deleteCustomModel w [token] = deleteResolved w fetchEvents m ∧
      apiCalls (deleteCustomModel w [token]).events =
        [Event.apiListCustomModels, Event.apiDeleteCustomModel m.Id] ∧
      readsInput (deleteCustomModel w [token]).events = false ∧
      Event.stdout "Select a model to delete:\n" ∉ (deleteCustomModel w [token]).events := by
  obtain ⟨m, hm, _⟩ := index_lookup models i hlo hhi
  have hres : resolveArg models [token] = some m := by
    have hpos : i > 0 := by omega
    unfold resolveArg
    simp only [hparse]
    rw [if_pos ⟨trivial, hpos, hhi⟩]
    exact hm
  have hrun : deleteCustomModel w [token] = deleteResolved w fetchEvents m := by
    rw [deleteCustomModel_nonempty w [token] models hlist hne, hres]
  refine ⟨m, hm, hres, hrun, ?_, ?_, ?_⟩
  · rw [hrun, deleteResolved_apiCalls]; rfl
  · rw [hrun, deleteResolved_readsInput]; rfl
  · rw [hrun]
    unfold deleteResolved
    cases w.deleteResult m.Id <;>
      simp [OutputErrorAndExit, Run.ret, fetchEvents, select_ne_confirmation, deleteEvents,
        confirmation]

/-- C1 on the two-model list: the token "2" parses to 2, is in range, and resolves
to the second model; and on the list `[namedTwo, claude]`, whose first model is named
"2", the token "2" still resolves to the second model, by index. -/
theorem C1_index_token_resolves_witness :
    (Atoi "2" = (2, none) ∧ [gpt, claude][((2 : Int) - 1).toNat]? = some claude ∧
      ∃ m, [gpt, claude][((2 : Int) - 1).toNat]? = some m ∧
        resolveArg [gpt, claude] ["2"] = some m ∧
        deleteCustomModel (twoModels "") ["2"] = deleteResolved (twoModels "") fetchEvents m ∧
        apiCalls (deleteCustomModel (twoModels "") ["2"]).events =
          [Event.apiListCustomModels, Event.apiDeleteCustomModel m.Id] ∧
        readsInput (deleteCustomModel (twoModels "") ["2"]).events = false ∧
        Event.stdout "Select a model to delete:\n" ∉
          (deleteCustomModel (twoModels "") ["2"]).events) ∧
    (namedTwo.ModelName = "2" ∧ [namedTwo, claude][((2 : Int) - 1).toNat]? = some claude ∧
      ∃ m, [namedTwo, claude][((2 : Int) - 1).toNat]? = some m ∧
        resolveArg [namedTwo, claude] ["2"] = some m ∧
        deleteCustomModel numeralNamed ["2"] = deleteResolved numeralNamed fetchEvents m ∧
        apiCalls (deleteCustomModel numeralNamed ["2"]).events =
          [Event.apiListCustomModels, Event.apiDeleteCustomModel m.Id] ∧
        readsInput (deleteCustomModel numeralNamed ["2"]).events = false ∧
        Event.stdout "Select a model to delete:\n" ∉
          (deleteCustomModel numeralNamed ["2"]).events) :=
  ⟨⟨by decide, by decide,
      C1_index_token_resolves (twoModels "") [gpt, claude] "2" 2 rfl (by simp) (by decide)
        (by decide) (by decide)⟩,
   ⟨rfl, by decide,
      C1_index_token_resolves numeralNamed [namedTwo, claude] "2" 2 rfl (by simp) (by decide)
        (by decide) (by decide)⟩⟩

/-- C2: with a non-empty fetched list, a single argument that does not parse as an
integer in `[1, len(models)]` resolves to the first entry in list order whose `ModelName`
equals the token (entries before it have another name, entries after it are not looked
at), and the delete call carries that entry's `Id` with no prompt; when no entry has
that name nothing is resolved and the run is the interactive one: it behaves as the run
without a token and starts with the fetch followed by the pick list and the read of
standard input. -/
theorem C2_name_token_resolves (w : World) (models : List CustomModel) (token : String)
    (hlist : w.listResult = .ok models) (hne : models ≠ [])
    (hnot : ¬ ((Atoi token).2 = none ∧ 1 ≤ (Atoi token).1 ∧
      (Atoi token).1 ≤ (models.length : Int))) :
    (∀ pre m post, models = pre ++ m :: post → m.ModelName = token →
        (∀ x ∈ pre, x.ModelName ≠ token) →
        resolveArg models [token] = some m ∧
        deleteCustomModel w [token] = deleteResolved w fetchEvents m ∧
        apiCalls (deleteCustomModel w [token]).events =
          [Event.apiListCustomModels, Event.apiDeleteCustomModel m.Id] ∧
        readsInput (deleteCustomModel w [token]).events = false) ∧
    ((∀ x ∈ models, x.ModelName ≠ token) →
        resolveArg models [token] = none ∧
        deleteCustomModel w [token] = deleteCustomModel w [] ∧
        readsInput (deleteCustomModel w [token]).events = true ∧
        ∃ rest, (deleteCustomModel w [token]).events =
          fetchEvents ++ promptEvents models ++ rest) := by
  have hsearch : resolveArg models [token] = searchByName token models := by
    unfold resolveArg
    simp only
    rw [if_neg]
    rintro ⟨h1, h2, h3⟩
    exact hnot ⟨h1, by omega, h3⟩
  constructor
  · intro pre m post hsplit hname hpre
    have hres : resolveArg models [token] = some m := by
      rw [hsearch, hsplit]
      exact searchByName_first token pre post m hname hpre
    have hrun : deleteCustomModel w [token] = deleteResolved w fetchEvents m := by
      rw [deleteCustomModel_nonempty w [token] models hlist hne, hres]
    refine ⟨hres, hrun, ?_, ?_⟩
    · rw [hrun, deleteResolved_apiCalls]; rfl
    · rw [hrun, deleteResolved_readsInput]; rfl
  · intro hnone
    have hres : resolveArg models [token] = none := by
      rw [hsearch]
      exact searchByName_none token models hnone
    have hres0 : resolveArg models [] = none := rfl
    have hsame : deleteCustomModel w [token] = deleteCustomModel w [] := by
      rw [deleteCustomModel_nonempty w [token] models hlist hne,
        deleteCustomModel_nonempty w [] models hlist hne, hres, hres0]
    have hext : ∃ rest, (deleteCustomModel w [token]).events =
        fetchEvents ++ promptEvents models ++ rest := by
      rw [deleteCustomModel_nonempty w [token] models hlist hne, hres]
      simp only
      split
      · exact ⟨_, rfl⟩
      · split
        · rename_i m _
          exact deleteResolved_events w (fetchEvents ++ promptEvents models) m
        · exact ⟨[], by simp⟩
    refine ⟨hres, hsame, ?_, hext⟩
    obtain ⟨rest, hrest⟩ := hext
    rw [hrest, readsInput_append, readsInput_append, readsInput_promptEvents]
    simp

/-- C2 on the two-model list: the token "gpt" resolves to the first model, and the
token "3", out of range and not a name, leads to the interactive pick list. -/
theorem C2_name_token_resolves_witness :
    (resolveArg [gpt, claude] ["gpt"] = some gpt ∧
      deleteCustomModel (twoModels "") ["gpt"] = deleteResolved (twoModels "") fetchEvents gpt ∧
      apiCalls (deleteCustomModel (twoModels "") ["gpt"]).events =
        [Event.apiListCustomModels, Event.apiDeleteCustomModel gpt.Id] ∧
      readsInput (deleteCustomModel (twoModels "") ["gpt"]).events = false) ∧
    (resolveArg [gpt, claude] ["3"] = none ∧
      deleteCustomModel (twoModels "1\n") ["3"] = deleteCustomModel (twoModels "1\n") [] ∧
      readsInput (deleteCustomModel (twoModels "1\n") ["3"]).events = true ∧
      ∃ rest, (deleteCustomModel (twoModels "1\n") ["3"]).events =
        fetchEvents ++ promptEvents [gpt, claude] ++ rest) :=
  ⟨(C2_name_token_resolves (twoModels "") [gpt, claude] "gpt" rfl (by simp) (by decide)).1
      [] gpt [claude] rfl rfl (by simp),
   (C2_name_token_resolves (twoModels "1\n") [gpt, claude] "3" rfl (by simp) (by decide)).2
      (by decide)⟩

/-- C3: when `ListCustomModels` succeeds with an empty list, then for every argument list
the run is the fetch followed by the line "No custom models available to delete.":
nothing is read from the terminal, no `DeleteCustomModel` (nor any other mutating) call
is made, the only API call is the listing, and the handler returns normally. -/
theorem C3_empty_list_reports (w : World) (args : List String)
    (hlist : w.listResult = .ok []) :
    deleteCustomModel w args =
      Run.ret (fetchEvents ++ [Event.stdout "No custom models available to delete.\n"]) ∧
    Event.stdout "No custom models available to delete.\n" ∈ (deleteCustomModel w args).events ∧
    readsInput (deleteCustomModel w args).events = false ∧
    mutatingCalls (deleteCustomModel w args).events = [] ∧
    apiCalls (deleteCustomModel w args).events = [Event.apiListCustomModels] ∧
    (deleteCustomModel w args).ending = Termination.returned ∧
    (deleteCustomModel w args).exitStatus = 0 := by
  have hrun : deleteCustomModel w args =
      Run.ret (fetchEvents ++ [Event.stdout "No custom models available to delete.\n"]) := by
    unfold deleteCustomModel
    rw [hlist]
    rfl
  rw [hrun]
  refine ⟨rfl, ?_, rfl, rfl, rfl, rfl, rfl⟩
  simp [Run.ret]

/-- C3 at the empty list with a token and pending input. -/
theorem C3_empty_list_reports_witness :
    deleteCustomModel (noModels "1\n") ["1"] =
      Run.ret (fetchEvents ++ [Event.stdout "No custom models available to delete.\n"]) ∧
    Event.stdout "No custom models available to delete.\n" ∈
      (deleteCustomModel (noModels "1\n") ["1"]).events ∧
    readsInput (deleteCustomModel (noModels "1\n") ["1"]).events = false ∧
    mutatingCalls (deleteCustomModel (noModels "1\n") ["1"]).events = [] ∧
    apiCalls (deleteCustomModel (noModels "1\n") ["1"]).events = [Event.apiListCustomModels] ∧
    (deleteCustomModel (noModels "1\n") ["1"]).ending = Termination.returned ∧
    (deleteCustomModel (noModels "1\n") ["1"]).exitStatus = 0 :=
  C3_empty_list_reports (noModels "1\n") ["1"] rfl

/-- C4: in the interactive fallback (the argument list resolved nothing: no token, or a
token that is neither an index in range nor a name), with a non-empty fetched list and
`k` the integer `fmt.Scanln` stored in `selectedIndex`: if `1 ≤ k ≤ len(models)` the run
deletes `models[k-1]` (the lookup does not panic and the delete call carries its `Id`);
otherwise the run ends with the line "Invalid selection." after the pick list, makes no
mutating call (so the stored model list is unchanged: the only API call is the listing)
and returns. -/
theorem C4_interactive_selection (w : World) (models : List CustomModel) (args : List String)
    (k : Int) (hlist : w.listResult = .ok models) (hne : models ≠ [])
    (hnone : resolveArg models args = none) (hk : (Scanln w.stdin 0).1 = k) :
    (1 ≤ k ∧ k ≤ (models.length : Int) →
      ∃ m, models[(k - 1).toNat]? = some m ∧
        deleteCustomModel w args = deleteResolved w (fetchEvents ++ promptEvents models) m ∧
        apiCalls (deleteCustomModel w args).events =
          [Event.apiListCustomModels, Event.apiDeleteCustomModel m.Id]) ∧
    (¬ (1 ≤ k ∧ k ≤ (models.length : Int)) →
      deleteCustomModel w args =
        Run.ret (fetchEvents ++ promptEvents models ++ [Event.stdout "Invalid selection.\n"]) ∧
      mutatingCalls (deleteCustomModel w args).events = [] ∧
      apiCalls (deleteCustomModel w args).events = [Event.apiListCustomModels]) := by
  subst hk
  have h := interactive_branch w models args hlist hne hnone
  constructor
  · intro hin
    obtain ⟨m, hm, hrun⟩ := h.1 hin
    refine ⟨m, hm, hrun, ?_⟩
    rw [hrun, deleteResolved_apiCalls, apiCalls_append, apiCalls_promptEvents]
    rfl
  · intro hbad
    have hrun := h.2 hbad
    refine ⟨hrun, ?_, ?_⟩
    · rw [hrun]
      show mutatingCalls (fetchEvents ++ promptEvents models ++
        [Event.stdout "Invalid selection.\n"]) = []
      rw [mutatingCalls_append, mutatingCalls_append, mutatingCalls_promptEvents]
      rfl
    · rw [hrun]
      show apiCalls (fetchEvents ++ promptEvents models ++
        [Event.stdout "Invalid selection.\n"]) = [Event.apiListCustomModels]
      rw [apiCalls_append, apiCalls_append, apiCalls_promptEvents]
      rfl

/-- C4 on the two-model list without a token: the input line "2" selects the second
model, the input line "7" is rejected. -/
theorem C4_interactive_selection_witness :
    (∃ m, [gpt, claude][((2 : Int) - 1).toNat]? = some m ∧
        deleteCustomModel (twoModels "2\n") [] =
          deleteResolved (twoModels "2\n") (fetchEvents ++ promptEvents [gpt, claude]) m ∧
        apiCalls (deleteCustomModel (twoModels "2\n") []).events =
          [Event.apiListCustomModels, Event.apiDeleteCustomModel m.Id]) ∧
    (deleteCustomModel (twoModels "7\n") [] =
        Run.ret (fetchEvents ++ promptEvents [gpt, claude] ++
          [Event.stdout "Invalid selection.\n"]) ∧
      mutatingCalls (deleteCustomModel (twoModels "7\n") []).events = [] ∧
      apiCalls (deleteCustomModel (twoModels "7\n") []).events = [Event.apiListCustomModels]) :=
  ⟨(C4_interactive_selection (twoModels "2\n") [gpt, claude] [] 2 rfl (by simp) rfl
      (by decide)).1 (by decide),
   (C4_interactive_selection (twoModels "7\n") [gpt, claude] [] 7 rfl (by simp) rfl
      (by decide)).2 (by decide)⟩

/-- C5 (the code at the failing inputs): with the two-model list and no token, the input
line "2abc" is not a decimal integer, yet `fmt.Scanln` stores the leading 2 in
`selectedIndex` before it reports "expected newline", the error is discarded, and the
run calls `DeleteCustomModel` for the second model and returns; the line "1 2" deletes
the first model in the same way.  A line without a leading integer ("abc") leaves
`selectedIndex` at 0 and ends with "Invalid selection.". -/
theorem C5_trailing_text_is_accepted :
    Scanln "2abc\n" 0 = (2, some ScanErr.expectedNewline) ∧
    deleteCustomModel (twoModels "2abc\n") [] =
      Run.ret (fetchEvents ++ promptEvents [gpt, claude] ++ deleteEvents claude ++
        [confirmation claude]) ∧
    apiCalls (deleteCustomModel (twoModels "2abc\n") []).events =
      [Event.apiListCustomModels, Event.apiDeleteCustomModel "b"] ∧
    Scanln "1 2\n" 0 = (1, some ScanErr.expectedNewline) ∧
    apiCalls (deleteCustomModel (twoModels "1 2\n") []).events =
      [Event.apiListCustomModels, Event.apiDeleteCustomModel "a"] ∧
    Scanln "abc\n" 0 = (0, some ScanErr.expectedInteger) ∧
    deleteCustomModel (twoModels "abc\n") [] =
      Run.ret (fetchEvents ++ promptEvents [gpt, claude] ++
        [Event.stdout "Invalid selection.\n"]) := by
  refine ⟨by decide, by decide, by decide, by decide, by decide, by decide, by decide⟩

/-- C6: every run of `deleteCustomModel` makes either the single API call
`ListCustomModels`, or that call followed by a single `DeleteCustomModel(id)` where `id`
is the `Id` of the resolved model: the element of the list just fetched that the
argument resolved to (`resolveArg`), or, when the argument resolved nothing, the entry
`models[k-1]` for the in-range value `k` that `fmt.Scanln` stored.  So at most one
mutating call is made, only the listing is called when listing fails, when the list is
empty, and when the interactive selection is not in `[1, len(models)]`, and in the two
resolving cases the delete call for exactly that model is made. -/
theorem C6_api_call_shapes (w : World) (args : List String) :
    (apiCalls (deleteCustomModel w args).events = [Event.apiListCustomModels] ∨
      ∃ models m, w.listResult = .ok models ∧ m ∈ models ∧
        (resolveArg models args = some m ∨
          (resolveArg models args = none ∧
            (1 ≤ (Scanln w.stdin 0).1 ∧ (Scanln w.stdin 0).1 ≤ (models.length : Int)) ∧
            models[((Scanln w.stdin 0).1 - 1).toNat]? = some m)) ∧
        apiCalls (deleteCustomModel w args).events =
          [Event.apiListCustomModels, Event.apiDeleteCustomModel m.Id]) ∧
    (mutatingCalls (deleteCustomModel w args).events).length ≤ 1 ∧
    (∀ err, w.listResult = .error err →
      apiCalls (deleteCustomModel w args).events = [Event.apiListCustomModels]) ∧
    (w.listResult = .ok [] →
      apiCalls (deleteCustomModel w args).events = [Event.apiListCustomModels]) ∧
    (∀ models, w.listResult = .ok models → resolveArg models args = none →
      ¬ (1 ≤ (Scanln w.stdin 0).1 ∧ (Scanln w.stdin 0).1 ≤ (models.length : Int)) →
      apiCalls (deleteCustomModel w args).events = [Event.apiListCustomModels]) ∧
    (∀ models m, w.listResult = .ok models → models ≠ [] →
      resolveArg models args = some m →
      apiCalls (deleteCustomModel w args).events =
        [Event.apiListCustomModels, Event.apiDeleteCustomModel m.Id]) ∧
    (∀ models m, w.listResult = .ok models → models ≠ [] →
      resolveArg models args = none →
      (1 ≤ (Scanln w.stdin 0).1 ∧ (Scanln w.stdin 0).1 ≤ (models.length : Int)) →
      models[((Scanln w.stdin 0).1 - 1).toNat]? = some m →
      apiCalls (deleteCustomModel w args).events =
        [Event.apiListCustomModels, Event.apiDeleteCustomModel m.Id]) := by
  have hprompt : ∀ models : List CustomModel,
      apiCalls (fetchEvents ++ promptEvents models) = [Event.apiListCustomModels] := by
    intro models
    rw [apiCalls_append, apiCalls_promptEvents]; rfl
  have hpromptm : ∀ models : List CustomModel,
      mutatingCalls (fetchEvents ++ promptEvents models) = [] := by
    intro models
    rw [mutatingCalls_append, mutatingCalls_promptEvents]; rfl
  have hinv : ∀ models : List CustomModel,
      apiCalls (Run.ret (fetchEvents ++ promptEvents models ++
        [Event.stdout "Invalid selection.\n"])).events = [Event.apiListCustomModels] := by
    intro models
    show apiCalls (fetchEvents ++ promptEvents models ++ _) = _
    rw [apiCalls_append, hprompt]; rfl
  have hinvm : ∀ models : List CustomModel,
      mutatingCalls (Run.ret (fetchEvents ++ promptEvents models ++
        [Event.stdout "Invalid selection.\n"])).events = [] := by
    intro models
    show mutatingCalls (fetchEvents ++ promptEvents models ++ _) = _
    rw [mutatingCalls_append, hpromptm]; rfl
  rcases deleteCustomModel_cases w args with
    ⟨err, hl, hrun⟩ | ⟨hl, hrun⟩ | ⟨models, m, hl, hne, hm, hres, hrun⟩ |
    ⟨models, hl, hne, hres, hbad, hrun⟩ | ⟨models, m, hl, hne, hm, hres, hin, hget, hrun⟩
  · rw [hrun]
    refine ⟨Or.inl rfl, Nat.zero_le 1, fun _ _ => rfl, fun _ => rfl, fun _ _ _ _ => rfl,
      ?_, ?_⟩
    · intro models1 m1 h; rw [hl] at h; cases h
    · intro models1 m1 h; rw [hl] at h; cases h
  · rw [hrun]
    refine ⟨Or.inl rfl, Nat.zero_le 1, fun _ _ => rfl, fun _ => rfl, fun _ _ _ _ => rfl,
      ?_, ?_⟩
    · intro models1 m1 h hne1
      rw [hl] at h; injection h with h; exact absurd h.symm hne1
    · intro models1 m1 h hne1
      rw [hl] at h; injection h with h; exact absurd h.symm hne1
  · rw [hrun, deleteResolved_apiCalls, deleteResolved_mutatingCalls]
    refine ⟨Or.inr ⟨models, m, hl, hm, Or.inl hres, rfl⟩,
      by simp [fetchEvents, mutatingCalls], ?_, ?_, ?_, ?_, ?_⟩
    · intro err h; rw [hl] at h; cases h
    · intro h; rw [hl] at h; injection h with h; exact absurd h hne
    · intro models1 h hres1 _
      rw [hl] at h; injection h with h; subst h
      rw [hres] at hres1; cases hres1
    · intro models1 m1 h _ hres1
      rw [hl] at h; injection h with h; subst h
      rw [hres] at hres1; injection hres1 with hres1; subst hres1
      rfl
    · intro models1 m1 h _ hres1
      rw [hl] at h; injection h with h; subst h
      rw [hres] at hres1; cases hres1
  · rw [hrun, hinv, hinvm]
    refine ⟨Or.inl rfl, Nat.zero_le 1, fun _ _ => rfl, fun _ => rfl, fun _ _ _ _ => rfl,
      ?_, ?_⟩
    · intro models1 m1 h _ hres1
      rw [hl] at h; injection h with h; subst h
      rw [hres] at hres1; cases hres1
    · intro models1 m1 h _ _ hin1
      rw [hl] at h; injection h with h; subst h
      exact absurd hin1 hbad
  · rw [hrun, deleteResolved_apiCalls, deleteResolved_mutatingCalls, hprompt, hpromptm]
    refine ⟨Or.inr ⟨models, m, hl, hm, Or.inr ⟨hres, hin, hget⟩, rfl⟩, by simp,
      ?_, ?_, ?_, ?_, ?_⟩
    · intro err h; rw [hl] at h; cases h
    · intro h; rw [hl] at h; injection h with h; exact absurd h hne
    · intro models1 h _ hbad
      rw [hl] at h; injection h with h; subst h
      exact absurd hin hbad
    · intro models1 m1 h _ hres1
      rw [hl] at h; injection h with h; subst h
      rw [hres] at hres1; cases hres1
    · intro models1 m1 h _ _ _ hget1
      rw [hl] at h; injection h with h; subst h
      rw [hget] at hget1; injection hget1 with hget1; subst hget1
      rfl

/-- C6 on the two-model list: the token "2" makes the listing call and the delete call
for the second model (`Id` "b"), not for the head of the list; without a token the input
line "1" makes the delete call for the first model (`Id` "a"); and an out-of-range
interactive selection makes only the listing call. -/
theorem C6_api_call_shapes_witness :
    (resolveArg [gpt, claude] ["2"] = some claude ∧
      apiCalls (deleteCustomModel (twoModels "") ["2"]).events =
        [Event.apiListCustomModels, Event.apiDeleteCustomModel "b"]) ∧
    ([gpt, claude][((Scanln "1\n" 0).1 - 1).toNat]? = some gpt ∧
      apiCalls (deleteCustomModel (twoModels "1\n") []).events =
        [Event.apiListCustomModels, Event.apiDeleteCustomModel "a"]) ∧
    apiCalls (deleteCustomModel (twoModels "7\n") []).events = [Event.apiListCustomModels] :=
  ⟨⟨by decide,
      (C6_api_call_shapes (twoModels "") ["2"]).2.2.2.2.2.1 [gpt, claude] claude rfl (by simp)
        (by decide)⟩,
   ⟨by decide,
      (C6_api_call_shapes (twoModels "1\n") []).2.2.2.2.2.2 [gpt, claude] gpt rfl (by simp)
        rfl (by decide) (by decide)⟩,
   (C6_api_call_shapes (twoModels "7\n") []).2.2.2.2.1 [gpt, claude] rfl rfl (by decide)⟩

/-- C7 as stated fails: with the two-model list, no token and the input line "7" the
interactive selection is invalid (7 is outside `[1, 2]`), yet the run prints
"Invalid selection." and returns with exit status 0; and with an empty list the run
returns with exit status 0 although nothing was deleted. -/
theorem C7_counterexample :
    (resolveArg [gpt, claude] [] = none ∧ (Scanln "7\n" 0).1 = 7 ∧
      ¬ ((1 : Int) ≤ 7 ∧ (7 : Int) ≤ (([gpt, claude] : List CustomModel).length : Int)) ∧
      (deleteCustomModel (twoModels "7\n") []).events.getLast? =
        some (Event.stdout "Invalid selection.\n") ∧
      (deleteCustomModel (twoModels "7\n") []).ending = Termination.returned ∧
      (deleteCustomModel (twoModels "7\n") []).exitStatus = 0) ∧
    ((deleteCustomModel (noModels "") []).exitStatus = 0 ∧
      mutatingCalls (deleteCustomModel (noModels "") []).events = []) := by
  refine ⟨⟨by decide, by decide, by decide, by decide, by decide, by decide⟩,
    by decide, by decide⟩

/-- C7 (amended): the delete command ends with a non-zero exit status, the error message
being the last thing printed, whenever `ListCustomModels` fails or the `DeleteCustomModel`
call it makes fails; and it ends with exit status 0 in exactly three cases: the fetched
list is empty (last line "No custom models available to delete."), the interactive
selection is outside `[1, len(models)]` (last line "Invalid selection."), or the delete
call for a fetched model succeeded (last line the confirmation text). -/
theorem C7_exit_behaviour (w : World) (args : List String) :
    (∀ err, w.listResult = .error err →
      (deleteCustomModel w args).exitStatus ≠ 0 ∧
      (deleteCustomModel w args).events.getLast? =
        some (Event.errorOutput "Error fetching custom models: %v"
          (GoError.collaborator err))) ∧
    (∀ id err, Event.apiDeleteCustomModel id ∈ (deleteCustomModel w args).events →
      w.deleteResult id = some err →
      (deleteCustomModel w args).exitStatus ≠ 0 ∧
      (deleteCustomModel w args).events.getLast? =
        some (Event.errorOutput "Error deleting custom model: %v"
          (GoError.collaborator err))) ∧
    ((deleteCustomModel w args).exitStatus = 0 ↔
      (w.listResult = .ok [] ∧
        (deleteCustomModel w args).events.getLast? =
          some (Event.stdout "No custom models available to delete.\n")) ∨
      (∃ models, w.listResult = .ok models ∧ models ≠ [] ∧ resolveArg models args = none ∧
        ¬ (1 ≤ (Scanln w.stdin 0).1 ∧ (Scanln w.stdin 0).1 ≤ (models.length : Int)) ∧
        (deleteCustomModel w args).events.getLast? =
          some (Event.stdout "Invalid selection.\n")) ∨
      (∃ models m, w.listResult = .ok models ∧ m ∈ models ∧
        Event.apiDeleteCustomModel m.Id ∈ (deleteCustomModel w args).events ∧
        w.deleteResult m.Id = none ∧
        (deleteCustomModel w args).events.getLast? = some (confirmation m))) := by
  -- the two cases that end in the deletion step share one argument
  have hdel : ∀ (models : List CustomModel) (m : CustomModel) (evs : List Event),
      w.listResult = .ok models → models ≠ [] → m ∈ models →
      (∀ id, Event.apiDeleteCustomModel id ∉ evs) →
      (resolveArg models args = none →
        (1 ≤ (Scanln w.stdin 0).1 ∧ (Scanln w.stdin 0).1 ≤ (models.length : Int))) →
      deleteCustomModel w args = deleteResolved w evs m →
      (∀ err, w.listResult = .error err →
        (deleteResolved w evs m).exitStatus ≠ 0 ∧
        (deleteResolved w evs m).events.getLast? =
          some (Event.errorOutput "Error fetching custom models: %v"
            (GoError.collaborator err))) ∧
      (∀ id err, Event.apiDeleteCustomModel id ∈ (deleteResolved w evs m).events →
        w.deleteResult id = some err →
        (deleteResolved w evs m).exitStatus ≠ 0 ∧
        (deleteResolved w evs m).events.getLast? =
          some (Event.errorOutput "Error deleting custom model: %v"
            (GoError.collaborator err))) ∧
      ((deleteResolved w evs m).exitStatus = 0 ↔
        (w.listResult = .ok [] ∧
          (deleteResolved w evs m).events.getLast? =
            some (Event.stdout "No custom models available to delete.\n")) ∨
        (∃ models, w.listResult = .ok models ∧ models ≠ [] ∧ resolveArg models args = none ∧
          ¬ (1 ≤ (Scanln w.stdin 0).1 ∧ (Scanln w.stdin 0).1 ≤ (models.length : Int)) ∧
          (deleteResolved w evs m).events.getLast? =
            some (Event.stdout "Invalid selection.\n")) ∨
        (∃ models m1, w.listResult = .ok models ∧ m1 ∈ models ∧
          Event.apiDeleteCustomModel m1.Id ∈ (deleteResolved w evs m).events ∧
          w.deleteResult m1.Id = none ∧
          (deleteResolved w evs m).events.getLast? = some (confirmation m1))) := by
    intro models m evs hl hne hm hevs hres _
    obtain ⟨honly, hin, herr, hok⟩ := deleteResolved_exit w evs m hevs
    refine ⟨?_, ?_, ?_⟩
    · intro err h; rw [hl] at h; cases h
    · intro id err hmem hfail
      have hid := honly id hmem
      subst hid
      have h := herr err hfail
      exact ⟨by rw [h.1]; decide, h.2⟩
    · constructor
      · intro hzero
        right; right
        cases hd : w.deleteResult m.Id with
        | none => exact ⟨models, m, hl, hm, hin, hd, (hok hd).2⟩
        | some err =>
          have h := (herr err hd).1
          rw [h] at hzero
          cases hzero
      · rintro (⟨h, _⟩ | ⟨models1, h, _, hnone, hbad, _⟩ | ⟨models1, m1, _, _, hmem, hnone, _⟩)
        · rw [hl] at h; injection h with h; exact absurd h hne
        · rw [hl] at h; injection h with h; subst h
          exact absurd (hres hnone) hbad
        · have hid := honly m1.Id hmem
          rw [hid] at hnone
          exact (hok hnone).1
  rcases deleteCustomModel_cases w args with
    ⟨err, hl, hrun⟩ | ⟨hl, hrun⟩ | ⟨models, m, hl, hne, hm, hres, hrun⟩ |
    ⟨models, hl, hne, hres, hbad, hrun⟩ | ⟨models, m, hl, hne, hm, hres, hin, hget, hrun⟩
  · rw [hrun]
    refine ⟨?_, ?_, ?_⟩
    · intro err1 h
      rw [hl] at h; injection h with h; subst h
      exact ⟨(fun h => by cases h), getLast_snoc_eq _ _⟩
    · intro id err1 hmem _
      exact absurd hmem (by simp [OutputErrorAndExit, fetchEvents])
    · constructor
      · intro h; cases h
      · rintro (⟨h, _⟩ | ⟨_, h, _⟩ | ⟨_, _, h, _⟩) <;> (rw [hl] at h; cases h)
  · rw [hrun]
    refine ⟨?_, ?_, ?_⟩
    · intro err h; rw [hl] at h; cases h
    · intro id err1 hmem _
      exact absurd hmem (by simp [Run.ret, fetchEvents])
    · constructor
      · intro _
        exact Or.inl ⟨hl, getLast_snoc_eq _ _⟩
      · intro _; rfl
  · rw [hrun]
    exact hdel models m fetchEvents hl hne hm no_delete_in_fetch
      (fun h => by rw [hres] at h; cases h) hrun
  · rw [hrun]
    refine ⟨?_, ?_, ?_⟩
    · intro err h; rw [hl] at h; cases h
    · intro id err1 hmem _
      have hmem1 : Event.apiDeleteCustomModel id ∈
          fetchEvents ++ promptEvents models ++ [Event.stdout "Invalid selection.\n"] := hmem
      rw [List.mem_append] at hmem1
      rcases hmem1 with h | h
      · exact absurd h (no_delete_in_prompt models id)
      · simp at h
    · constructor
      · intro _
        exact Or.inr (Or.inl ⟨models, hl, hne, hres, hbad, getLast_snoc_eq _ _⟩)
      · intro _; rfl
  · rw [hrun]
    exact hdel models m (fetchEvents ++ promptEvents models) hl hne hm
      (no_delete_in_prompt models) (fun _ => hin) hrun

/-- C7 (amended) on the two-model list: a failing delete call after the token "gpt" ends
the run with a non-zero exit status and the error message. -/
theorem C7_exit_behaviour_witness :
    (deleteCustomModel
      { listResult := .ok [gpt, claude], deleteResult := fun _ => some "boom", stdin := "" }
      ["gpt"]).exitStatus ≠ 0 ∧
    (deleteCustomModel
      { listResult := .ok [gpt, claude], deleteResult := fun _ => some "boom", stdin := "" }
      ["gpt"]).events.getLast? =
        some (Event.errorOutput "Error deleting custom model: %v"
          (GoError.collaborator "boom")) :=
  (C7_exit_behaviour
    { listResult := .ok [gpt, claude], deleteResult := fun _ => some "boom", stdin := "" }
    ["gpt"]).2.1 "a" "boom" (by decide) rfl

/-- The `i`-th row of the custom models table is the row of the `i`-th model. -/
theorem customRows_getElem_opt (k i : Nat) (ms : List CustomModel) :
    (customRows k ms)[i]? = (ms[i]?).map (customRow (k + i)) := by
  induction ms generalizing k i with
  | nil => simp [customRows]
  | cons m ms ih =>
    cases i with
    | zero => simp [customRows]
    | succ j =>
      simp only [customRows, List.getElem?_cons_succ]
      rw [ih (k + 1) j]
      have hk : k + 1 + j = k + (j + 1) := by omega
      rw [hk]

/-- C8 (the code after `init`): starting from the empty tree, `init` puts `models` under
the root command and exactly `available` and `create` under `models`, with the flag
`--custom`/`-c` on `available`; `deleteCustomModelCmd` is not among the children of
`modelsCmd`, no child of `modelsCmd` runs `deleteCustomModel`, and for every tree `init`
leaves the places where `deleteCustomModelCmd` is registered as they were. -/
theorem C8_delete_not_registered :
    (init CmdTree.empty).children none = [modelsCmd] ∧
    (init CmdTree.empty).children (some modelsCmd) =
      [listAvailableModelsCmd, createCustomModelCmd] ∧
    ((init CmdTree.empty).children (some modelsCmd)).map Command.Use =
      ["available", "create"] ∧
    (init CmdTree.empty).flags listAvailableModelsCmd =
      [{ name := "custom", shorthand := "c", value := false,
         usage := "List custom models only" }] ∧
    deleteCustomModelCmd.Use = "delete [name-or-index]" ∧
    deleteCustomModelCmd ∉ (init CmdTree.empty).children (some modelsCmd) ∧
    (∀ c ∈ (init CmdTree.empty).children (some modelsCmd),
      c.Run ≠ Handler.deleteCustomModel) ∧
    (∀ (t : CmdTree) (p : Option Command),
      deleteCustomModelCmd ∈ (init t).children p ↔ deleteCustomModelCmd ∈ t.children p) := by
  refine ⟨by decide, by decide, by decide, by decide, rfl, by decide, by decide, ?_⟩
  intro t p
  have hm : deleteCustomModelCmd ≠ modelsCmd := by decide
  have ha : deleteCustomModelCmd ≠ listAvailableModelsCmd := by decide
  have hc : deleteCustomModelCmd ≠ createCustomModelCmd := by decide
  simp only [init, AddCommand, BoolVarP]
  by_cases h1 : p = none <;> by_cases h2 : p = some modelsCmd <;>
    simp [h1, h2, hm, ha, hc]

/-- C9: in the interactive `createCustomModel` (lines 46-106), once the first four prompts
have been answered, a max-tokens text that `strconv.Atoi` rejects ends the run with the
error message "Invalid number for max tokens" and exit status 1 after four prompts,
without any API call; and when the remaining two prompts are answered too and the text
parses to `n`, the only API call of the run is one `CreateCustomModel` whose model has the
entered `ModelName`, `Provider`, `BaseUrl`, `ApiKeyEnvVar` and `Description`, and
`MaxTokens = n`. -/
theorem C9_create_custom_model (w : CreateWorld)
    (modelName provider baseUrl maxTokensStr : String)
    (h0 : w.input 0 = .ok modelName) (h1 : w.input 1 = .ok provider)
    (h2 : w.input 2 = .ok baseUrl) (h3 : w.input 3 = .ok maxTokensStr) :
    (∀ e, (Atoi maxTokensStr).2 = some e →
      (createCustomModel w).events.getLast? =
        some (Event.errorOutput "Invalid number for max tokens: %v"
          (GoError.atoi maxTokensStr e)) ∧
      (createCustomModel w).ending = Termination.exited 1 ∧
      apiCalls (createCustomModel w).events = []) ∧
    (∀ n apiKeyEnvVar description, Atoi maxTokensStr = (n, none) →
      w.input 4 = .ok apiKeyEnvVar → w.input 5 = .ok description →
      apiCalls (createCustomModel w).events =
        [Event.apiCreateCustomModel
          { Id := "", ModelName := modelName, Provider := provider, BaseUrl := baseUrl,
            MaxTokens := n, ApiKeyEnvVar := apiKeyEnvVar, Description := description }]) := by
  constructor
  · intro e he
    have hA : Atoi maxTokensStr = ((Atoi maxTokensStr).1, some e) := by
      rw [← he]
    unfold createCustomModel
    simp only [h0, h1, h2, h3]
    rw [hA]
    exact ⟨getLast_snoc_eq _ _, rfl, rfl⟩
  · intro n apiKeyEnvVar description hA h4 h5
    unfold createCustomModel
    simp only [h0, h1, h2, h3, h4, h5]
    rw [hA]
    simp only [createCall]
    cases w.createResult _ <;> rfl

/-- C9 for a user typing "12x" (rejected) and for a user typing "4096". -/
theorem C9_create_custom_model_witness :
    ((createCustomModel (typed "12x")).events.getLast? =
        some (Event.errorOutput "Invalid number for max tokens: %v"
          (GoError.atoi "12x" NumErr.syntaxErr)) ∧
      (createCustomModel (typed "12x")).ending = Termination.exited 1 ∧
      apiCalls (createCustomModel (typed "12x")).events = []) ∧
    apiCalls (createCustomModel (typed "4096")).events =
      [Event.apiCreateCustomModel
        { Id := "", ModelName := "gpt", Provider := "openai", BaseUrl := "https://x",
          MaxTokens := 4096, ApiKeyEnvVar := "KEY", Description := "" }] :=
  ⟨(C9_create_custom_model (typed "12x") "gpt" "openai" "https://x" "12x" rfl rfl rfl rfl).1
      NumErr.syntaxErr (by decide),
   (C9_create_custom_model (typed "4096") "gpt" "openai" "https://x" "4096" rfl rfl rfl rfl).2
      4096 "KEY" "" (by decide) rfl rfl⟩

/-- C10 (the code): row `i` of the custom models table is `customRow i` of the `i`-th
model and has as many cells as the header, but the cell under "Provider" holds the
model's `ModelName` and the cell under "Name" holds its `Provider`; the other cells hold
`i+1`, `MaxTokens`, `ApiKeyEnvVar` and `BaseUrl`.  The built-in table puts `Provider`
under "Provider" and `ModelName` under "Name".  For the one-model list `[openaiModel]`
the rendered row shows "gpt" under "Provider" and "openai" under "Name". -/
theorem C10_custom_row_swaps_columns :
    (∀ (ms : List CustomModel) (i : Nat),
      (customRows 0 ms)[i]? = (ms[i]?).map (customRow i)) ∧
    (∀ (i : Nat) (m : CustomModel),
      (customRow i m).length = customHeader.length ∧
      cellUnder customHeader (customRow i m) "#" = some (toString (i + 1)) ∧
      cellUnder customHeader (customRow i m) "Provider" = some m.ModelName ∧
      cellUnder customHeader (customRow i m) "Name" = some m.Provider ∧
      cellUnder customHeader (customRow i m) "🪙" = some (toString m.MaxTokens) ∧
      cellUnder customHeader (customRow i m) "🔑" = some m.ApiKeyEnvVar ∧
      cellUnder customHeader (customRow i m) "Url" = some m.BaseUrl) ∧
    (∀ b : BaseModelConfig,
      cellUnder builtInHeader (builtInRow b) "Provider" = some b.Provider ∧
      cellUnder builtInHeader (builtInRow b) "Name" = some b.ModelName) ∧
    (Event.table ["#", "Provider", "Name", "🪙", "🔑", "Url"]
        [["1", "gpt", "openai", "4096", "KEY", "https://x"]] ∈
      (listAvailableModels oneCustomModel).events) ∧
    cellUnder customHeader (customRow 0 openaiModel) "Provider" = some "gpt" ∧
    cellUnder customHeader (customRow 0 openaiModel) "Provider" ≠ some openaiModel.Provider := by
  refine ⟨?_, ?_, ?_, by decide, by decide, by decide⟩
  · intro ms i
    have h := customRows_getElem_opt 0 i ms
    simpa using h
  · intro i m
    refine ⟨rfl, ?_, ?_, ?_, ?_, ?_, ?_⟩ <;> simp [cellUnder, customHeader, customRow]
  · intro b
    constructor <;> simp [cellUnder, builtInHeader, builtInRow]

end Plandex
